import Mathlib

/-!
Verification of the rational-trigonometry library (quadrance / spread /
cross / Archimedes' quadrea, their fault-checked twins, the fixed-width
specializations and the predicate layer).

The generic formula layer of `src/trigonom.rs` is polymorphic over a
numeric capability; here it is embedded at the exact rational instance
`ℚ` (the spec's exact numeric domain), except for `archimedes` and the
`Triangle2D` record, which are kept polymorphic over a commutative ring
exactly as the source keeps them generic.

The fixed-width specializations of `src/const_trigonom.rs` are embedded
over `Int`/`Nat` with every arithmetic operation reduced modulo `2 ^ w`
(two's-complement for the signed widths), the release-mode wrapping
semantics of the source's machine integers.  The `f64` specializations
are embedded twice: over `ℚ` for the concrete anchors, in each of which
every IEEE binary64 operation is exact (all operands and results are
small dyadic rationals), so exact rational arithmetic agrees with the
double-precision evaluation step for step; and, for the universally
quantified guard property of `spread_f64`, over the `F64` model further
below, which carries IEEE 754's signed infinities and NaN, detects
overflow and propagates special values as binary64 does.
-/

/-- Fault taxonomy of `src/error.rs` (`MathError`). -/
inductive MathError where
  | DivisionByZero : MathError
  | InvalidInput : MathError
  | Overflow : MathError
deriving DecidableEq, Repr

/-- `quadrance` of `src/trigonom.rs`: sum of squared coordinate
differences, at the exact rational instance. -/
def quadrance (p_1 p_2 : ℚ × ℚ) : ℚ :=
  let dx := p_1.1 - p_2.1
  let dy := p_1.2 - p_2.2
  dx * dx + dy * dy

/-- `spread` of `src/trigonom.rs` (unchecked variant). -/
def spread (v_1 v_2 : ℚ × ℚ) : ℚ :=
  let dot_product := v_1.1 * v_2.1 + v_1.2 * v_2.2
  let q_1 := quadrance v_1 (0, 0)
  let q_2 := quadrance v_2 (0, 0)
  1 - dot_product * dot_product / (q_1 * q_2)

/-- `safe_spread` of `src/trigonom.rs`: the fault-checked twin of
`spread`, returning `MathError.DivisionByZero` when either vector has
zero quadrance. -/
def safe_spread (v_1 v_2 : ℚ × ℚ) : Except MathError ℚ :=
  let dot_product := v_1.1 * v_2.1 + v_1.2 * v_2.2
  let q_1 := quadrance v_1 (0, 0)
  let q_2 := quadrance v_2 (0, 0)
  if q_1 = 0 ∨ q_2 = 0 then
    Except.error MathError.DivisionByZero
  else
    Except.ok (1 - dot_product * dot_product / (q_1 * q_2))

/-- `cross` of `src/trigonom.rs`. -/
def cross (v_1 v_2 : ℚ × ℚ) : ℚ :=
  v_1.1 * v_2.2 - v_1.2 * v_2.1

/-- `cross_from_three_points` of `src/trigonom.rs`. -/
def cross_from_three_points (p_1 p_2 p_3 : ℚ × ℚ) : ℚ :=
  cross (p_2.1 - p_1.1, p_2.2 - p_1.2) (p_3.1 - p_1.1, p_3.2 - p_1.2)

/-- `quadrance_from_three_points` of `src/trigonom.rs`: the three side
quadrances, each opposite the same-numbered vertex. -/
def quadrance_from_three_points (p_1 p_2 p_3 : ℚ × ℚ) : ℚ × ℚ × ℚ :=
  (quadrance p_2 p_3, quadrance p_1 p_3, quadrance p_1 p_2)

/-- `spread_from_three_points` of `src/trigonom.rs`: the three spreads,
each at the same-numbered vertex (opposite the same-numbered quadrance). -/
def spread_from_three_points (p_1 p_2 p_3 : ℚ × ℚ) : ℚ × ℚ × ℚ :=
  let q_1 := quadrance p_2 p_3
  let q_2 := quadrance p_1 p_3
  let q_3 := quadrance p_1 p_2
  let four : ℚ := 1 + 1 + 1 + 1
  let s_1 := 1 - (q_2 + q_3 - q_1) * (q_2 + q_3 - q_1) / (four * q_2 * q_3)
  let s_2 := 1 - (q_1 + q_3 - q_2) * (q_1 + q_3 - q_2) / (four * q_1 * q_3)
  let s_3 := 1 - (q_1 + q_2 - q_3) * (q_1 + q_2 - q_3) / (four * q_1 * q_2)
  (s_1, s_2, s_3)

/-- `dilatation` of `src/trigonom.rs` (unchecked variant): ratio of the
two quadrances from the origin, with the documented zero special-case. -/
def dilatation (v_1 v_2 : ℚ × ℚ) : ℚ :=
  let q_1 := quadrance v_1 (0, 0)
  let q_2 := quadrance v_2 (0, 0)
  if q_1 = 0 then 0 else q_2 / q_1

/-- `safe_dilatation` of `src/trigonom.rs`: the fault-checked twin of
`dilatation`. -/
def safe_dilatation (v_1 v_2 : ℚ × ℚ) : Except MathError ℚ :=
  let q_1 := quadrance v_1 (0, 0)
  let q_2 := quadrance v_2 (0, 0)
  if q_1 = 0 then Except.error MathError.DivisionByZero
  else Except.ok (q_2 / q_1)

/-- `archimedes` of `src/trigonom.rs` (the quadrea), kept generic over a
commutative ring as the source keeps it generic; the constant four is
materialized as `1 + 1 + 1 + 1` exactly as in the source. -/
def archimedes {α : Type} [CommRing α] (q_1 q_2 q_3 : α) : α :=
  let temp := q_1 + q_2 - q_3
  let four : α := 1 + 1 + 1 + 1
  four * q_1 * q_2 - temp * temp

/-- `satisfies_triangle_inequality` of `src/validation.rs`: despite its
name it only checks the three quadrances for non-negativity. -/
def satisfies_triangle_inequality (q_1 q_2 q_3 : ℚ) : Bool :=
  decide (q_1 ≥ 0) && decide (q_2 ≥ 0) && decide (q_3 ≥ 0)

/-- The barycentric determinant `denominator` computed inside
`point_in_triangle` of `src/validation.rs`. -/
def bary_denominator (p_1 p_2 p_3 : ℚ × ℚ) : ℚ :=
  (p_2.2 - p_3.2) * (p_1.1 - p_3.1) + (p_3.1 - p_2.1) * (p_1.2 - p_3.2)

/-- `point_in_triangle` of `src/validation.rs`: barycentric-coordinate
containment test, reporting `false` outright on a zero determinant. -/
def point_in_triangle (point p_1 p_2 p_3 : ℚ × ℚ) : Bool :=
  let x := point.1
  let y := point.2
  let x1 := p_1.1
  let y1 := p_1.2
  let x2 := p_2.1
  let y2 := p_2.2
  let x3 := p_3.1
  let y3 := p_3.2
  let denominator := bary_denominator p_1 p_2 p_3
  if denominator = 0 then false
  else
    let a := ((y2 - y3) * (x - x3) + (x3 - x2) * (y - y3)) / denominator
    let b := ((y3 - y1) * (x - x3) + (x1 - x3) * (y - y3)) / denominator
    let c := 1 - a - b
    decide (a ≥ 0) && decide (b ≥ 0) && decide (c ≥ 0)

/-- `Point2D` of `src/geometry.rs`. -/
structure Point2D (α : Type) where
  x : α
  y : α

/-- `Triangle2D` of `src/geometry.rs`. -/
structure Triangle2D (α : Type) where
  p1 : Point2D α
  p2 : Point2D α
  p3 : Point2D α

/-- `Triangle2D::quadrances` of `src/geometry.rs`. -/
def Triangle2D.quadrances {α : Type} [CommRing α] (t : Triangle2D α) : α × α × α :=
  let q1 := (t.p2.x - t.p3.x) * (t.p2.x - t.p3.x) + (t.p2.y - t.p3.y) * (t.p2.y - t.p3.y)
  let q2 := (t.p1.x - t.p3.x) * (t.p1.x - t.p3.x) + (t.p1.y - t.p3.y) * (t.p1.y - t.p3.y)
  let q3 := (t.p1.x - t.p2.x) * (t.p1.x - t.p2.x) + (t.p1.y - t.p2.y) * (t.p1.y - t.p2.y)
  (q1, q2, q3)

/-- `Triangle2D::area` of `src/geometry.rs`: despite its name it applies
Archimedes' formula to the side quadrances (the quadrea). -/
def Triangle2D.area {α : Type} [CommRing α] (t : Triangle2D α) : α :=
  let q := t.quadrances
  let temp := q.1 + q.2.1 - q.2.2
  let four : α := 1 + 1 + 1 + 1
  four * q.1 * q.2.1 - temp * temp

/-- Two's-complement wrap of width `w`: the value an overflowing signed
`w`-bit machine operation stores (release-mode wrapping semantics). -/
def sWrap (w : Nat) (x : Int) : Int := (x + 2 ^ (w - 1)) % 2 ^ w - 2 ^ (w - 1)

/-- Unsigned wrap of width `w`. -/
def uWrap (w : Nat) (x : Nat) : Nat := x % 2 ^ w

/-- Wrapping subtraction of unsigned `w`-bit values (for `a`, `b` below
`2 ^ w` it is the two's-complement difference). -/
def uSub (w : Nat) (a b : Nat) : Nat := (a + 2 ^ w - b) % 2 ^ w

/-- `abs_diff` of the unsigned machine integers: `|a - b|` on `Nat`. -/
def abs_diff (a b : Nat) : Nat := if b ≤ a then a - b else b - a

/-- `quadrance_i32/i64/i128` of `src/const_trigonom.rs`, parametrized by
the width `w`; every operation wraps to `w` signed bits. -/
def quadranceS (w : Nat) (p_1 p_2 : Int × Int) : Int :=
  let dx := sWrap w (p_1.1 - p_2.1)
  let dy := sWrap w (p_1.2 - p_2.2)
  sWrap w (sWrap w (dx * dx) + sWrap w (dy * dy))

/-- The `dot_product` computed inside the signed `spread` specializations. -/
def dotS (w : Nat) (v_1 v_2 : Int × Int) : Int :=
  sWrap w (sWrap w (v_1.1 * v_2.1) + sWrap w (v_1.2 * v_2.2))

/-- `spread_i32/i64/i128` of `src/const_trigonom.rs`, parametrized by the
width `w`.  Signed machine division truncates toward zero (`Int.tdiv`). -/
def spreadS (w : Nat) (v_1 v_2 : Int × Int) : Int :=
  let dot_product := dotS w v_1 v_2
  let q_1 := quadranceS w v_1 (0, 0)
  let q_2 := quadranceS w v_2 (0, 0)
  let q_product := sWrap w (q_1 * q_2)
  if q_product = 0 then 0
  else sWrap w (q_product - sWrap w (Int.tdiv (sWrap w (dot_product * dot_product)) q_product))

/-- `archimedes_i32/i64/i128` of `src/const_trigonom.rs`, parametrized by
the width `w`. -/
def archimedesS (w : Nat) (q_1 q_2 q_3 : Int) : Int :=
  let temp := sWrap w (sWrap w (q_1 + q_2) - q_3)
  sWrap w (sWrap w (sWrap w (4 * q_1) * q_2) - sWrap w (temp * temp))

/-- `quadrance_u32/u64/u128` of `src/const_trigonom.rs`, parametrized by
the width `w`; coordinate differences use `abs_diff` as in the source. -/
def quadranceU (w : Nat) (p_1 p_2 : Nat × Nat) : Nat :=
  let dx := abs_diff p_1.1 p_2.1
  let dy := abs_diff p_1.2 p_2.2
  uWrap w (uWrap w (dx * dx) + uWrap w (dy * dy))

/-- The `dot_product` computed inside the unsigned `spread` specializations. -/
def dotU (w : Nat) (v_1 v_2 : Nat × Nat) : Nat :=
  uWrap w (uWrap w (v_1.1 * v_2.1) + uWrap w (v_1.2 * v_2.2))

/-- `spread_u32/u64/u128` of `src/const_trigonom.rs`, parametrized by the
width `w`.  Unsigned machine division is floor division on `Nat`. -/
def spreadU (w : Nat) (v_1 v_2 : Nat × Nat) : Nat :=
  let dot_product := dotU w v_1 v_2
  let q_1 := quadranceU w v_1 (0, 0)
  let q_2 := quadranceU w v_2 (0, 0)
  let q_product := uWrap w (q_1 * q_2)
  if q_product = 0 then 0
  else uSub w q_product (uWrap w (dot_product * dot_product) / q_product)

/-- `archimedes_u32/u64/u128` of `src/const_trigonom.rs`, parametrized by
the width `w`. -/
def archimedesU (w : Nat) (q_1 q_2 q_3 : Nat) : Nat :=
  let temp := uSub w (uWrap w (q_1 + q_2)) q_3
  uSub w (uWrap w (uWrap w (4 * q_1) * q_2)) (uWrap w (temp * temp))

/-- `quadrance_i32` of `src/const_trigonom.rs`. -/
def quadrance_i32 : Int × Int → Int × Int → Int := quadranceS 32

/-- `spread_i32` of `src/const_trigonom.rs`. -/
def spread_i32 : Int × Int → Int × Int → Int := spreadS 32

/-- `archimedes_i32` of `src/const_trigonom.rs`. -/
def archimedes_i32 : Int → Int → Int → Int := archimedesS 32

/-- `quadrance_i64` of `src/const_trigonom.rs`. -/
def quadrance_i64 : Int × Int → Int × Int → Int := quadranceS 64

/-- `spread_i64` of `src/const_trigonom.rs`. -/
def spread_i64 : Int × Int → Int × Int → Int := spreadS 64

/-- `archimedes_i64` of `src/const_trigonom.rs`. -/
def archimedes_i64 : Int → Int → Int → Int := archimedesS 64

/-- `quadrance_i128` of `src/const_trigonom.rs`. -/
def quadrance_i128 : Int × Int → Int × Int → Int := quadranceS 128

/-- `spread_i128` of `src/const_trigonom.rs`. -/
def spread_i128 : Int × Int → Int × Int → Int := spreadS 128

/-- `archimedes_i128` of `src/const_trigonom.rs`. -/
def archimedes_i128 : Int → Int → Int → Int := archimedesS 128

/-- `quadrance_u32` of `src/const_trigonom.rs`. -/
def quadrance_u32 : Nat × Nat → Nat × Nat → Nat := quadranceU 32

/-- `spread_u32` of `src/const_trigonom.rs`. -/
def spread_u32 : Nat × Nat → Nat × Nat → Nat := spreadU 32

/-- `archimedes_u32` of `src/const_trigonom.rs`. -/
def archimedes_u32 : Nat → Nat → Nat → Nat := archimedesU 32

/-- `quadrance_u64` of `src/const_trigonom.rs`. -/
def quadrance_u64 : Nat × Nat → Nat × Nat → Nat := quadranceU 64

/-- `spread_u64` of `src/const_trigonom.rs`. -/
def spread_u64 : Nat × Nat → Nat × Nat → Nat := spreadU 64

/-- `archimedes_u64` of `src/const_trigonom.rs`. -/
def archimedes_u64 : Nat → Nat → Nat → Nat := archimedesU 64

/-- `quadrance_u128` of `src/const_trigonom.rs`. -/
def quadrance_u128 : Nat × Nat → Nat × Nat → Nat := quadranceU 128

/-- `spread_u128` of `src/const_trigonom.rs`. -/
def spread_u128 : Nat × Nat → Nat × Nat → Nat := spreadU 128

/-- `archimedes_u128` of `src/const_trigonom.rs`. -/
def archimedes_u128 : Nat → Nat → Nat → Nat := archimedesU 128

/-- `quadrance_f64` of `src/const_trigonom.rs`, embedded over `ℚ`: in
every verified instance below each binary64 operation is exact, so exact
rational arithmetic coincides with the double-precision evaluation. -/
def quadrance_f64 (p_1 p_2 : ℚ × ℚ) : ℚ :=
  let dx := p_1.1 - p_2.1
  let dy := p_1.2 - p_2.2
  dx * dx + dy * dy

/-- `spread_f64` of `src/const_trigonom.rs`, embedded over `ℚ` (see
`quadrance_f64`); the zero guard on the quadrance product is the
source's own. -/
def spread_f64 (v_1 v_2 : ℚ × ℚ) : ℚ :=
  let dot_product := v_1.1 * v_2.1 + v_1.2 * v_2.2
  let q_1 := quadrance_f64 v_1 (0, 0)
  let q_2 := quadrance_f64 v_2 (0, 0)
  let q_product := q_1 * q_2
  if q_product = 0 then 0
  else 1 - dot_product * dot_product / q_product

/-- `archimedes_f64` of `src/const_trigonom.rs`, embedded over `ℚ` (see
`quadrance_f64`). -/
def archimedes_f64 (q_1 q_2 q_3 : ℚ) : ℚ :=
  let temp := q_1 + q_2 - q_3
  let four : ℚ := 4
  four * q_1 * q_2 - temp * temp

/-- The guard contract of a signed `spread` specialization of width `w`:
a zero quadrance product returns `0` without dividing, and otherwise the
result is the source's formula, whose division is by that nonzero product. -/
def spread_guarded_s (w : Nat) (f : Int × Int → Int × Int → Int) : Prop :=
  ∀ v_1 v_2 : Int × Int,
    (sWrap w (quadranceS w v_1 (0, 0) * quadranceS w v_2 (0, 0)) = 0 → f v_1 v_2 = 0) ∧
    (sWrap w (quadranceS w v_1 (0, 0) * quadranceS w v_2 (0, 0)) ≠ 0 →
      f v_1 v_2 =
        sWrap w (sWrap w (quadranceS w v_1 (0, 0) * quadranceS w v_2 (0, 0)) -
          sWrap w (Int.tdiv (sWrap w (dotS w v_1 v_2 * dotS w v_1 v_2))
            (sWrap w (quadranceS w v_1 (0, 0) * quadranceS w v_2 (0, 0))))))

/-- The guard contract of an unsigned `spread` specialization of width `w`. -/
def spread_guarded_u (w : Nat) (f : Nat × Nat → Nat × Nat → Nat) : Prop :=
  ∀ v_1 v_2 : Nat × Nat,
    (uWrap w (quadranceU w v_1 (0, 0) * quadranceU w v_2 (0, 0)) = 0 → f v_1 v_2 = 0) ∧
    (uWrap w (quadranceU w v_1 (0, 0) * quadranceU w v_2 (0, 0)) ≠ 0 →
      f v_1 v_2 =
        uSub w (uWrap w (quadranceU w v_1 (0, 0) * quadranceU w v_2 (0, 0)))
          (uWrap w (dotU w v_1 v_2 * dotU w v_1 v_2) /
            uWrap w (quadranceU w v_1 (0, 0) * quadranceU w v_2 (0, 0))))

lemma spreadS_guard (w : Nat) (v_1 v_2 : Int × Int) :
    (sWrap w (quadranceS w v_1 (0, 0) * quadranceS w v_2 (0, 0)) = 0 →
      spreadS w v_1 v_2 = 0) ∧
    (sWrap w (quadranceS w v_1 (0, 0) * quadranceS w v_2 (0, 0)) ≠ 0 →
      spreadS w v_1 v_2 =
        sWrap w (sWrap w (quadranceS w v_1 (0, 0) * quadranceS w v_2 (0, 0)) -
          sWrap w (Int.tdiv (sWrap w (dotS w v_1 v_2 * dotS w v_1 v_2))
            (sWrap w (quadranceS w v_1 (0, 0) * quadranceS w v_2 (0, 0)))))) := by
  constructor
  · intro h
    simp only [spreadS]
    rw [if_pos h]
  · intro h
    simp only [spreadS]
    rw [if_neg h]

lemma spreadU_guard (w : Nat) (v_1 v_2 : Nat × Nat) :
    (uWrap w (quadranceU w v_1 (0, 0) * quadranceU w v_2 (0, 0)) = 0 →
      spreadU w v_1 v_2 = 0) ∧
    (uWrap w (quadranceU w v_1 (0, 0) * quadranceU w v_2 (0, 0)) ≠ 0 →
      spreadU w v_1 v_2 =
        uSub w (uWrap w (quadranceU w v_1 (0, 0) * quadranceU w v_2 (0, 0)))
          (uWrap w (dotU w v_1 v_2 * dotU w v_1 v_2) /
            uWrap w (quadranceU w v_1 (0, 0) * quadranceU w v_2 (0, 0)))) := by
  constructor
  · intro h
    simp only [spreadU]
    rw [if_pos h]
  · intro h
    simp only [spreadU]
    rw [if_neg h]

set_option maxRecDepth 10000 in
/-- C7: `archimedes(1,2,3) == 8` for the generic function (here at the
exact integer and exact rational instances) and for every fixed-type
specialization. -/
theorem archimedes_regression_anchor :
    archimedes (1 : ℤ) 2 3 = 8 ∧ archimedes (1 : ℚ) 2 3 = 8 ∧
    archimedes_i32 1 2 3 = 8 ∧ archimedes_i64 1 2 3 = 8 ∧
    archimedes_f64 1 2 3 = 8 ∧ archimedes_u32 1 2 3 = 8 ∧
    archimedes_u64 1 2 3 = 8 ∧ archimedes_i128 1 2 3 = 8 ∧
    archimedes_u128 1 2 3 = 8 := by
  refine ⟨by decide, by norm_num [archimedes], by decide, by decide,
    by norm_num [archimedes_f64], by decide, by decide, by decide, by decide⟩

set_option maxRecDepth 10000 in
/-- C2: the generic `spread` at the floating-point anchor returns exactly
one half (every binary64 operation on these inputs is exact, as does the
`f64` specialization), while each integer/unsigned specialization returns
`2` on the inputs `((1,1),(1,0))` (its formula under integer division). -/
theorem spread_anchor :
    spread (1, 1) (1, 0) = 1 / 2 ∧ spread_f64 (1, 1) (1, 0) = 1 / 2 ∧
    spread_i32 (1, 1) (1, 0) = 2 ∧ spread_i64 (1, 1) (1, 0) = 2 ∧
    spread_i128 (1, 1) (1, 0) = 2 ∧ spread_u32 (1, 1) (1, 0) = 2 ∧
    spread_u64 (1, 1) (1, 0) = 2 ∧ spread_u128 (1, 1) (1, 0) = 2 := by
  refine ⟨by norm_num [spread, quadrance], by norm_num [spread_f64, quadrance_f64],
    by decide, by decide, by decide, by decide, by decide, by decide⟩

/-- C3: `safe_spread` on the zero vector paired with any vector returns
the `DivisionByZero` fault, and in general it faults exactly when one of
the two quadrances from the origin is zero. -/
theorem safe_spread_error_iff :
    (∀ v : ℚ × ℚ, safe_spread (0, 0) v = Except.error MathError.DivisionByZero) ∧
    (∀ v_1 v_2 : ℚ × ℚ,
      safe_spread v_1 v_2 = Except.error MathError.DivisionByZero ↔
        quadrance v_1 (0, 0) = 0 ∨ quadrance v_2 (0, 0) = 0) := by
  constructor
  · intro v
    simp only [safe_spread]
    rw [if_pos (Or.inl (by norm_num [quadrance]))]
  · intro v_1 v_2
    simp only [safe_spread]
    split_ifs with h
    · exact iff_of_true rfl h
    · exact iff_of_false (by simp) h

/-- C4: wherever both quadrances are nonzero, the fault-checked
`safe_spread` returns `Ok` of exactly the unchecked `spread`. -/
theorem safe_spread_ok (v_1 v_2 : ℚ × ℚ) (h_1 : quadrance v_1 (0, 0) ≠ 0)
    (h_2 : quadrance v_2 (0, 0) ≠ 0) :
    safe_spread v_1 v_2 = Except.ok (spread v_1 v_2) := by
  simp only [safe_spread, spread]
  rw [if_neg (not_or.mpr ⟨h_1, h_2⟩)]

/-- Witness for `safe_spread_ok` at the concrete input `((1,1),(1,0))`. -/
theorem safe_spread_ok_witness :
    quadrance (1, 1) (0, 0) ≠ 0 ∧ quadrance (1, 0) (0, 0) ≠ 0 ∧
    safe_spread (1, 1) (1, 0) = Except.ok (spread (1, 1) (1, 0)) :=
  ⟨by norm_num [quadrance], by norm_num [quadrance],
    safe_spread_ok (1, 1) (1, 0) (by norm_num [quadrance]) (by norm_num [quadrance])⟩

/-- C5: `dilatation` returns the ratio of the quadrances from the origin;
on a zero denominator the unchecked variant returns the additive identity
while `safe_dilatation` returns the `DivisionByZero` fault, and exactly
then. -/
theorem dilatation_spec (v_1 v_2 : ℚ × ℚ) :
    (quadrance v_1 (0, 0) ≠ 0 →
      dilatation v_1 v_2 = quadrance v_2 (0, 0) / quadrance v_1 (0, 0) ∧
      safe_dilatation v_1 v_2 = Except.ok (dilatation v_1 v_2)) ∧
    (quadrance v_1 (0, 0) = 0 →
      dilatation v_1 v_2 = 0 ∧
      safe_dilatation v_1 v_2 = Except.error MathError.DivisionByZero) := by
  constructor
  · intro h
    constructor
    · simp only [dilatation]
      rw [if_neg h]
    · simp only [dilatation, safe_dilatation]
      rw [if_neg h, if_neg h]
  · intro h
    constructor
    · simp only [dilatation]
      rw [if_pos h]
    · simp only [safe_dilatation]
      rw [if_pos h]

/-- Witness for `dilatation_spec` at the concrete inputs `((1,0),(2,0))`
(nonzero denominator) and `((0,0),(1,0))` (zero denominator). -/
theorem dilatation_spec_witness :
    dilatation (1, 0) (2, 0) = 4 ∧ safe_dilatation (1, 0) (2, 0) = Except.ok 4 ∧
    dilatation (0, 0) (1, 0) = 0 ∧
    safe_dilatation (0, 0) (1, 0) = Except.error MathError.DivisionByZero := by
  have h1 : quadrance ((1 : ℚ), (0 : ℚ)) (0, 0) ≠ 0 := by norm_num [quadrance]
  have h0 : quadrance ((0 : ℚ), (0 : ℚ)) (0, 0) = 0 := by norm_num [quadrance]
  obtain ⟨ha, hb⟩ := (dilatation_spec (1, 0) (2, 0)).1 h1
  obtain ⟨hc, hd⟩ := (dilatation_spec (0, 0) (1, 0)).2 h0
  have hval : dilatation (1, 0) (2, 0) = 4 := by
    rw [ha]; norm_num [quadrance]
  refine ⟨hval, ?_, hc, hd⟩
  rw [hb, hval]

/-- C8: `satisfies_triangle_inequality` is exactly the non-negativity
check of the three quadrances; in particular the triple `(100, 1, 1)`,
which violates the actual triangle inequality, passes. -/
theorem satisfies_triangle_inequality_spec :
    (∀ q_1 q_2 q_3 : ℚ, satisfies_triangle_inequality q_1 q_2 q_3 = true ↔
      0 ≤ q_1 ∧ 0 ≤ q_2 ∧ 0 ≤ q_3) ∧
    satisfies_triangle_inequality 100 1 1 = true := by
  constructor
  · intro q_1 q_2 q_3
    simp [satisfies_triangle_inequality, and_assoc]
  · norm_num [satisfies_triangle_inequality]

/-- C9: `Triangle2D::area` is Archimedes' quadrea of the three side
quadrances, not the geometric area: on `(0,0),(1,0),(0,1)` it yields `4`
(the geometric area is one half). -/
theorem triangle_area_is_quadrea {α : Type} [CommRing α] (t : Triangle2D α) :
    t.area = archimedes t.quadrances.1 t.quadrances.2.1 t.quadrances.2.2 ∧
    (Triangle2D.mk ⟨0, 0⟩ ⟨1, 0⟩ ⟨0, 1⟩ : Triangle2D ℚ).area = 4 := by
  constructor
  · simp only [Triangle2D.area, archimedes]
  · norm_num [Triangle2D.area, Triangle2D.quadrances]

lemma quadrance_eq_zero_iff (p_1 p_2 : ℚ × ℚ) : quadrance p_1 p_2 = 0 ↔ p_1 = p_2 := by
  constructor
  · intro h
    simp only [quadrance] at h
    have hx : (p_1.1 - p_2.1) * (p_1.1 - p_2.1) = 0 := by
      nlinarith [mul_self_nonneg (p_1.1 - p_2.1), mul_self_nonneg (p_1.2 - p_2.2)]
    have hy : (p_1.2 - p_2.2) * (p_1.2 - p_2.2) = 0 := by
      nlinarith [mul_self_nonneg (p_1.1 - p_2.1), mul_self_nonneg (p_1.2 - p_2.2)]
    have hx0 := mul_self_eq_zero.1 hx
    have hy0 := mul_self_eq_zero.1 hy
    exact Prod.ext_iff.2 ⟨by linarith, by linarith⟩
  · intro h
    subst h
    simp only [quadrance]
    ring

lemma spread_law_algebra (q_1 q_2 q_3 : ℚ) (h_1 : q_1 ≠ 0) (h_2 : q_2 ≠ 0)
    (h_3 : q_3 ≠ 0) :
    q_1 * (1 - (q_1 + q_3 - q_2) * (q_1 + q_3 - q_2) / ((1 + 1 + 1 + 1) * q_1 * q_3)) =
      q_2 * (1 - (q_2 + q_3 - q_1) * (q_2 + q_3 - q_1) / ((1 + 1 + 1 + 1) * q_2 * q_3)) := by
  have h4 : (1 + 1 + 1 + 1 : ℚ) = 4 := by norm_num
  rw [h4]
  field_simp
  ring

lemma spread_law_algebra2 (q_1 q_2 q_3 : ℚ) (h_1 : q_1 ≠ 0) (h_2 : q_2 ≠ 0)
    (h_3 : q_3 ≠ 0) :
    q_2 * (1 - (q_1 + q_2 - q_3) * (q_1 + q_2 - q_3) / ((1 + 1 + 1 + 1) * q_1 * q_2)) =
      q_3 * (1 - (q_1 + q_3 - q_2) * (q_1 + q_3 - q_2) / ((1 + 1 + 1 + 1) * q_1 * q_3)) := by
  have h4 : (1 + 1 + 1 + 1 : ℚ) = 4 := by norm_num
  rw [h4]
  field_simp
  ring

/-- C1 (amended): for a non-degenerate triangle the sine-law pairing is
the spread law `s1/q1 = s2/q2 = s3/q3`, stated in cross-multiplied form
`q1*s2 = q2*s1` and `q2*s3 = q3*s2`; the products `q_i * s_i` of the
claim are not equal in general (see the counterexample). -/
theorem spread_law_three_points (p_1 p_2 p_3 : ℚ × ℚ)
    (h : cross_from_three_points p_1 p_2 p_3 ≠ 0) :
    (quadrance_from_three_points p_1 p_2 p_3).1 *
        (spread_from_three_points p_1 p_2 p_3).2.1 =
      (quadrance_from_three_points p_1 p_2 p_3).2.1 *
        (spread_from_three_points p_1 p_2 p_3).1 ∧
    (quadrance_from_three_points p_1 p_2 p_3).2.1 *
        (spread_from_three_points p_1 p_2 p_3).2.2 =
      (quadrance_from_three_points p_1 p_2 p_3).2.2 *
        (spread_from_three_points p_1 p_2 p_3).2.1 := by
  have h23 : p_2 ≠ p_3 := by
    intro e
    apply h
    subst e
    simp only [cross_from_three_points, cross]
    ring
  have h13 : p_1 ≠ p_3 := by
    intro e
    apply h
    subst e
    simp only [cross_from_three_points, cross]
    ring
  have h12 : p_1 ≠ p_2 := by
    intro e
    apply h
    subst e
    simp only [cross_from_three_points, cross]
    ring
  have hq1 : quadrance p_2 p_3 ≠ 0 := fun e => h23 ((quadrance_eq_zero_iff _ _).1 e)
  have hq2 : quadrance p_1 p_3 ≠ 0 := fun e => h13 ((quadrance_eq_zero_iff _ _).1 e)
  have hq3 : quadrance p_1 p_2 ≠ 0 := fun e => h12 ((quadrance_eq_zero_iff _ _).1 e)
  simp only [quadrance_from_three_points, spread_from_three_points]
  exact ⟨spread_law_algebra (quadrance p_2 p_3) (quadrance p_1 p_3) (quadrance p_1 p_2)
      hq1 hq2 hq3,
    spread_law_algebra2 (quadrance p_2 p_3) (quadrance p_1 p_3) (quadrance p_1 p_2)
      hq1 hq2 hq3⟩

/-- Witness for `spread_law_three_points` at the 3-4-5 right triangle
`(0,0),(3,0),(0,4)` (quadrances `25,16,9`, spreads `1,16/25,9/25`). -/
theorem spread_law_three_points_witness :
    cross_from_three_points ((0 : ℚ), (0 : ℚ)) (3, 0) (0, 4) ≠ 0 ∧
    ((quadrance_from_three_points ((0 : ℚ), (0 : ℚ)) (3, 0) (0, 4)).1 *
        (spread_from_three_points ((0 : ℚ), (0 : ℚ)) (3, 0) (0, 4)).2.1 =
      (quadrance_from_three_points ((0 : ℚ), (0 : ℚ)) (3, 0) (0, 4)).2.1 *
        (spread_from_three_points ((0 : ℚ), (0 : ℚ)) (3, 0) (0, 4)).1 ∧
    (quadrance_from_three_points ((0 : ℚ), (0 : ℚ)) (3, 0) (0, 4)).2.1 *
        (spread_from_three_points ((0 : ℚ), (0 : ℚ)) (3, 0) (0, 4)).2.2 =
      (quadrance_from_three_points ((0 : ℚ), (0 : ℚ)) (3, 0) (0, 4)).2.2 *
        (spread_from_three_points ((0 : ℚ), (0 : ℚ)) (3, 0) (0, 4)).2.1) :=
  ⟨by norm_num [cross_from_three_points, cross],
    spread_law_three_points (0, 0) (3, 0) (0, 4)
      (by norm_num [cross_from_three_points, cross])⟩

/-- Counterexample to C1 as stated: on the non-degenerate 3-4-5 triangle
`(0,0),(3,0),(0,4)` the products `q_i * s_i` are `25`, `256/25`, `81/25`,
so `q1*s1 == q2*s2 == q3*s3` fails. -/
theorem sine_law_product_counterexample :
    ¬ ((quadrance_from_three_points ((0 : ℚ), (0 : ℚ)) (3, 0) (0, 4)).1 *
        (spread_from_three_points ((0 : ℚ), (0 : ℚ)) (3, 0) (0, 4)).1 =
      (quadrance_from_three_points ((0 : ℚ), (0 : ℚ)) (3, 0) (0, 4)).2.1 *
        (spread_from_three_points ((0 : ℚ), (0 : ℚ)) (3, 0) (0, 4)).2.1 ∧
      (quadrance_from_three_points ((0 : ℚ), (0 : ℚ)) (3, 0) (0, 4)).2.1 *
        (spread_from_three_points ((0 : ℚ), (0 : ℚ)) (3, 0) (0, 4)).2.1 =
      (quadrance_from_three_points ((0 : ℚ), (0 : ℚ)) (3, 0) (0, 4)).2.2 *
        (spread_from_three_points ((0 : ℚ), (0 : ℚ)) (3, 0) (0, 4)).2.2) := by
  intro hcontra
  obtain ⟨h1, _⟩ := hcontra
  norm_num [quadrance_from_three_points, spread_from_three_points, quadrance] at h1

/-- The barycentric combination `p_3 + a0*(p_1 - p_3) + b0*(p_2 - p_3)`:
the point whose barycentric coordinates with respect to the triangle are
`(a0, b0, 1 - a0 - b0)`. -/
def bary_point (p_1 p_2 p_3 : ℚ × ℚ) (a0 b0 : ℚ) : ℚ × ℚ :=
  (p_3.1 + a0 * (p_1.1 - p_3.1) + b0 * (p_2.1 - p_3.1),
   p_3.2 + a0 * (p_1.2 - p_3.2) + b0 * (p_2.2 - p_3.2))

/-- Membership in the closed triangle spanned by the three points (all
barycentric coordinates non-negative); its negation is "strictly
outside". -/
def in_closed_triangle (q p_1 p_2 p_3 : ℚ × ℚ) : Prop :=
  ∃ a0 b0 : ℚ, 0 ≤ a0 ∧ 0 ≤ b0 ∧ a0 + b0 ≤ 1 ∧ q = bary_point p_1 p_2 p_3 a0 b0

/-- Membership on one of the three closed edges of the triangle. -/
def on_triangle_edge (q p_1 p_2 p_3 : ℚ × ℚ) : Prop :=
  ∃ t : ℚ, 0 ≤ t ∧ t ≤ 1 ∧
    (q = (p_1.1 + t * (p_2.1 - p_1.1), p_1.2 + t * (p_2.2 - p_1.2)) ∨
     q = (p_2.1 + t * (p_3.1 - p_2.1), p_2.2 + t * (p_3.2 - p_2.2)) ∨
     q = (p_1.1 + t * (p_3.1 - p_1.1), p_1.2 + t * (p_3.2 - p_1.2)))

set_option maxHeartbeats 1000000 in
lemma point_in_triangle_bary (p_1 p_2 p_3 : ℚ × ℚ) (a0 b0 : ℚ)
    (hd : bary_denominator p_1 p_2 p_3 ≠ 0) :
    point_in_triangle (bary_point p_1 p_2 p_3 a0 b0) p_1 p_2 p_3 = true ↔
      (0 ≤ a0 ∧ 0 ≤ b0 ∧ a0 + b0 ≤ 1) := by
  simp only [point_in_triangle, bary_point]
  rw [if_neg hd]
  have hA : (p_2.2 - p_3.2) * (p_3.1 + a0 * (p_1.1 - p_3.1) + b0 * (p_2.1 - p_3.1) - p_3.1) +
      (p_3.1 - p_2.1) * (p_3.2 + a0 * (p_1.2 - p_3.2) + b0 * (p_2.2 - p_3.2) - p_3.2) =
      a0 * bary_denominator p_1 p_2 p_3 := by
    simp only [bary_denominator]
    ring
  have hB : (p_3.2 - p_1.2) * (p_3.1 + a0 * (p_1.1 - p_3.1) + b0 * (p_2.1 - p_3.1) - p_3.1) +
      (p_1.1 - p_3.1) * (p_3.2 + a0 * (p_1.2 - p_3.2) + b0 * (p_2.2 - p_3.2) - p_3.2) =
      b0 * bary_denominator p_1 p_2 p_3 := by
    simp only [bary_denominator]
    ring
  simp only [Bool.and_eq_true, decide_eq_true_eq, ge_iff_le, and_assoc]
  rw [hA, hB, mul_div_cancel_right₀ _ hd, mul_div_cancel_right₀ _ hd]
  constructor
  · rintro ⟨h1, h2, h3⟩
    exact ⟨h1, h2, by linarith⟩
  · rintro ⟨h1, h2, h3⟩
    exact ⟨h1, h2, by linarith⟩

lemma bary_rep (p_1 p_2 p_3 q : ℚ × ℚ) (hd : bary_denominator p_1 p_2 p_3 ≠ 0) :
    q = bary_point p_1 p_2 p_3
      (((p_2.2 - p_3.2) * (q.1 - p_3.1) + (p_3.1 - p_2.1) * (q.2 - p_3.2)) /
        bary_denominator p_1 p_2 p_3)
      (((p_3.2 - p_1.2) * (q.1 - p_3.1) + (p_1.1 - p_3.1) * (q.2 - p_3.2)) /
        bary_denominator p_1 p_2 p_3) := by
  have hd2 : (p_2.2 - p_3.2) * (p_1.1 - p_3.1) + (p_3.1 - p_2.1) * (p_1.2 - p_3.2) ≠ 0 := by
    simpa [bary_denominator] using hd
  rw [Prod.ext_iff]
  constructor
  · simp only [bary_point, bary_denominator]
    field_simp
    ring
  · simp only [bary_point, bary_denominator]
    field_simp
    ring

/-- C6: `point_in_triangle` reports `false` outright on a degenerate
(zero-determinant) triangle; for a non-degenerate one it accepts every
vertex and every point of a closed edge, and rejects every point strictly
outside the closed triangle. -/
theorem point_in_triangle_correct (p_1 p_2 p_3 q : ℚ × ℚ) :
    (bary_denominator p_1 p_2 p_3 = 0 → point_in_triangle q p_1 p_2 p_3 = false) ∧
    (bary_denominator p_1 p_2 p_3 ≠ 0 →
      ((q = p_1 ∨ q = p_2 ∨ q = p_3) → point_in_triangle q p_1 p_2 p_3 = true) ∧
      (on_triangle_edge q p_1 p_2 p_3 → point_in_triangle q p_1 p_2 p_3 = true) ∧
      (¬ in_closed_triangle q p_1 p_2 p_3 → point_in_triangle q p_1 p_2 p_3 = false)) := by
  constructor
  · intro h
    simp only [point_in_triangle]
    rw [if_pos h]
  · intro hd
    refine ⟨?_, ?_, ?_⟩
    · intro hv
      rcases hv with e | e | e
      · rw [e]
        have hq : p_1 = bary_point p_1 p_2 p_3 1 0 :=
          Prod.ext_iff.2 ⟨by simp only [bary_point]; ring, by simp only [bary_point]; ring⟩
        have hiff := point_in_triangle_bary p_1 p_2 p_3 1 0 hd
        rw [← hq] at hiff
        exact hiff.mpr (by norm_num)
      · rw [e]
        have hq : p_2 = bary_point p_1 p_2 p_3 0 1 :=
          Prod.ext_iff.2 ⟨by simp only [bary_point]; ring, by simp only [bary_point]; ring⟩
        have hiff := point_in_triangle_bary p_1 p_2 p_3 0 1 hd
        rw [← hq] at hiff
        exact hiff.mpr (by norm_num)
      · rw [e]
        have hq : p_3 = bary_point p_1 p_2 p_3 0 0 :=
          Prod.ext_iff.2 ⟨by simp only [bary_point]; ring, by simp only [bary_point]; ring⟩
        have hiff := point_in_triangle_bary p_1 p_2 p_3 0 0 hd
        rw [← hq] at hiff
        exact hiff.mpr (by norm_num)
    · rintro ⟨t, ht0, ht1, rfl | rfl | rfl⟩
      · have hq : (p_1.1 + t * (p_2.1 - p_1.1), p_1.2 + t * (p_2.2 - p_1.2)) =
            bary_point p_1 p_2 p_3 (1 - t) t := by
          simp only [bary_point, Prod.mk.injEq]
          constructor <;> ring
        rw [hq]
        exact (point_in_triangle_bary p_1 p_2 p_3 (1 - t) t hd).mpr
          ⟨by linarith, ht0, by linarith⟩
      · have hq : (p_2.1 + t * (p_3.1 - p_2.1), p_2.2 + t * (p_3.2 - p_2.2)) =
            bary_point p_1 p_2 p_3 0 (1 - t) := by
          simp only [bary_point, Prod.mk.injEq]
          constructor <;> ring
        rw [hq]
        exact (point_in_triangle_bary p_1 p_2 p_3 0 (1 - t) hd).mpr
          ⟨le_refl 0, by linarith, by linarith⟩
      · have hq : (p_1.1 + t * (p_3.1 - p_1.1), p_1.2 + t * (p_3.2 - p_1.2)) =
            bary_point p_1 p_2 p_3 (1 - t) 0 := by
          simp only [bary_point, Prod.mk.injEq]
          constructor <;> ring
        rw [hq]
        exact (point_in_triangle_bary p_1 p_2 p_3 (1 - t) 0 hd).mpr
          ⟨by linarith, le_refl 0, by linarith⟩
    · intro hout
      by_contra hfalse
      have htrue : point_in_triangle q p_1 p_2 p_3 = true := by
        revert hfalse
        cases point_in_triangle q p_1 p_2 p_3 <;> simp
      have hrep := bary_rep p_1 p_2 p_3 q hd
      have hiff := point_in_triangle_bary p_1 p_2 p_3
        (((p_2.2 - p_3.2) * (q.1 - p_3.1) + (p_3.1 - p_2.1) * (q.2 - p_3.2)) /
          bary_denominator p_1 p_2 p_3)
        (((p_3.2 - p_1.2) * (q.1 - p_3.1) + (p_1.1 - p_3.1) * (q.2 - p_3.2)) /
          bary_denominator p_1 p_2 p_3) hd
      rw [← hrep] at hiff
      obtain ⟨h1, h2, h3⟩ := hiff.1 htrue
      exact hout ⟨_, _, h1, h2, h3, hrep⟩

/-- Witness for `point_in_triangle_correct`: a degenerate triangle, a
vertex, an edge midpoint and a point strictly outside, all concrete. -/
theorem point_in_triangle_correct_witness :
    point_in_triangle (0, 0) (0, 0) (1, 1) (2, 2) = false ∧
    point_in_triangle (0, 0) (0, 0) (1, 0) (0, 1) = true ∧
    point_in_triangle (1 / 2, 1 / 2) (0, 0) (1, 0) (0, 1) = true ∧
    point_in_triangle (5, 5) (0, 0) (1, 0) (0, 1) = false := by
  have hdeg : bary_denominator ((0 : ℚ), (0 : ℚ)) (1, 1) (2, 2) = 0 := by
    norm_num [bary_denominator]
  have hd : bary_denominator ((0 : ℚ), (0 : ℚ)) (1, 0) (0, 1) ≠ 0 := by
    norm_num [bary_denominator]
  refine ⟨(point_in_triangle_correct (0, 0) (1, 1) (2, 2) (0, 0)).1 hdeg,
    ((point_in_triangle_correct (0, 0) (1, 0) (0, 1) (0, 0)).2 hd).1 (Or.inl rfl),
    ((point_in_triangle_correct (0, 0) (1, 0) (0, 1) (1 / 2, 1 / 2)).2 hd).2.1 ?_,
    ((point_in_triangle_correct (0, 0) (1, 0) (0, 1) (5, 5)).2 hd).2.2 ?_⟩
  · exact ⟨1 / 2, by norm_num, by norm_num,
      Or.inr (Or.inl (by norm_num [Prod.mk.injEq]))⟩
  · rintro ⟨a0, b0, ha, hb, hab, he⟩
    simp only [bary_point, Prod.mk.injEq] at he
    obtain ⟨he1, he2⟩ := he
    norm_num at he1 he2
    linarith

/-!
IEEE binary64 model for the floating-point `spread` specialization.

The `ℚ`-valued `spread_f64` above is exact only on inputs whose whole
evaluation stays within exactly representable finite doubles, which is
all the concrete anchors need; it cannot express overflow to infinity or
NaN.  The universally quantified guard claim about `spread_f64` is about
precisely those escapes, so it is settled against `F64` below: IEEE
binary64 with its special values.  `F64` carries the two signed
infinities and NaN, detects overflow at the round-to-nearest-even
boundary `2 ^ 1024 - 2 ^ 970` (values of magnitude at or above it round
to infinity; the largest finite double is `2 ^ 1024 - 2 ^ 971`), and
propagates specials through `+`, `-`, `*`, `/` and `==` exactly as IEEE
754 prescribes (`inf - inf`, `0 * inf`, `inf / inf`, `0 / 0` are NaN;
NaN compares unequal to everything; `x - y` is `x + (-y)`).  Finite
intermediate values are kept as exact dyadic rationals rather than
rounded to 53 bits, and the sign of zero is not tracked: none of the
statements proved below distinguishes values by less than that, since
every finite value they evaluate is exactly representable and IEEE
`== 0.0` does not separate the two zeros. -/
inductive F64 where
  | nan : F64
  | inf : Bool → F64
  | finite : ℚ → F64
deriving DecidableEq, Repr

/-- Round-to-nearest-even overflow handling of a real arithmetic result:
magnitudes at or above `2 ^ 1024 - 2 ^ 970` become the signed infinity,
anything smaller stays finite (kept exact, see `F64`). -/
def f64Round (q : ℚ) : F64 :=
  if q ≤ -(2 ^ 1024 - 2 ^ 970) then F64.inf true
  else if (2 ^ 1024 - 2 ^ 970 : ℚ) ≤ q then F64.inf false
  else F64.finite q

/-- IEEE negation. -/
def F64.neg : F64 → F64
  | nan => nan
  | inf b => inf (!b)
  | finite a => finite (-a)

/-- IEEE addition: NaN propagates, opposite infinities give NaN, an
infinity absorbs any finite value, finite sums may overflow. -/
def F64.add : F64 → F64 → F64
  | nan, _ => nan
  | _, nan => nan
  | inf b_1, inf b_2 => if b_1 = b_2 then inf b_1 else nan
  | inf b, finite _ => inf b
  | finite _, inf b => inf b
  | finite a, finite b => f64Round (a + b)

/-- IEEE subtraction: `x - y = x + (-y)`. -/
def F64.sub (x y : F64) : F64 := F64.add x (F64.neg y)

/-- IEEE multiplication: NaN propagates, `0 * inf` is NaN, signs of
infinities combine, finite products may overflow. -/
def F64.mul : F64 → F64 → F64
  | nan, _ => nan
  | _, nan => nan
  | inf b_1, inf b_2 => inf (b_1 != b_2)
  | inf b, finite a => if a = 0 then nan else inf (b != decide (a < 0))
  | finite a, inf b => if a = 0 then nan else inf (b != decide (a < 0))
  | finite a, finite b => f64Round (a * b)

/-- IEEE division: NaN propagates, `inf / inf` and `0 / 0` are NaN, a
nonzero finite over zero is the signed infinity, finite over infinity is
zero, finite quotients may overflow. -/
def F64.div : F64 → F64 → F64
  | nan, _ => nan
  | _, nan => nan
  | inf _, inf _ => nan
  | inf b, finite a => inf (b != decide (a < 0))
  | finite _, inf _ => finite 0
  | finite a, finite b =>
    if b = 0 then (if a = 0 then nan else inf (decide (a < 0) != decide (b < 0)))
    else f64Round (a / b)

/-- IEEE equality comparison `==`: NaN is unequal to everything,
including itself. -/
def f64Beq : F64 → F64 → Bool
  | F64.nan, _ => false
  | _, F64.nan => false
  | F64.inf b_1, F64.inf b_2 => b_1 == b_2
  | F64.inf _, F64.finite _ => false
  | F64.finite _, F64.inf _ => false
  | F64.finite a, F64.finite b => decide (a = b)

/-- `quadrance_f64` of `src/const_trigonom.rs` over the IEEE model. -/
def quadrance_f64_ieee (p_1 p_2 : F64 × F64) : F64 :=
  let dx := F64.sub p_1.1 p_2.1
  let dy := F64.sub p_1.2 p_2.2
  F64.add (F64.mul dx dx) (F64.mul dy dy)

/-- `spread_f64` of `src/const_trigonom.rs` over the IEEE model; the
zero guard on the quadrance product is the source's own `== 0.0` test. -/
def spread_f64_ieee (v_1 v_2 : F64 × F64) : F64 :=
  let dot_product := F64.add (F64.mul v_1.1 v_2.1) (F64.mul v_1.2 v_2.2)
  let q_1 := quadrance_f64_ieee v_1 (F64.finite 0, F64.finite 0)
  let q_2 := quadrance_f64_ieee v_2 (F64.finite 0, F64.finite 0)
  let q_product := F64.mul q_1 q_2
  if f64Beq q_product (F64.finite 0) then F64.finite 0
  else F64.sub (F64.finite 1) (F64.div (F64.mul dot_product dot_product) q_product)

/-- Counterexample to C10 as stated: `spread_f64` can produce NaN.  On
`v_1 = v_2 = (2 ^ 600, 0)` both quadrances overflow to `+inf`, the
quadrance product `+inf` is not caught by the `== 0.0` guard, and the
division branch computes `1 - inf / inf = NaN`.  Every finite value of
this evaluation is a power of two (exactly representable), so the model
follows the real binary64 run step for step. -/
theorem spread_f64_nan_counterexample :
    spread_f64_ieee (F64.finite (2 ^ 600), F64.finite 0)
      (F64.finite (2 ^ 600), F64.finite 0) = F64.nan := by
  norm_num [spread_f64_ieee, quadrance_f64_ieee, F64.sub, F64.neg, F64.add,
    F64.mul, F64.div, f64Beq, f64Round]

/-- C10 (amended): every fixed-type `spread` specialization guards its
division — a quadrance product that compares equal to zero
short-circuits to `0` (`0.0` for `f64`, also on a zero vector) without
dividing, and the division branch only runs when that comparison fails;
for the integer specializations the divisor is then nonzero, so no
division fault occurs, while for `spread_f64` a bypassed guard can still
yield NaN on overflowing inputs (see the counterexample). -/
theorem spread_specializations_guard :
    spread_guarded_s 32 spread_i32 ∧ spread_guarded_s 64 spread_i64 ∧
    spread_guarded_s 128 spread_i128 ∧ spread_guarded_u 32 spread_u32 ∧
    spread_guarded_u 64 spread_u64 ∧ spread_guarded_u 128 spread_u128 ∧
    ∀ v_1 v_2 : F64 × F64,
      (f64Beq (F64.mul (quadrance_f64_ieee v_1 (F64.finite 0, F64.finite 0))
          (quadrance_f64_ieee v_2 (F64.finite 0, F64.finite 0))) (F64.finite 0) = true →
        spread_f64_ieee v_1 v_2 = F64.finite 0) ∧
      (f64Beq (F64.mul (quadrance_f64_ieee v_1 (F64.finite 0, F64.finite 0))
          (quadrance_f64_ieee v_2 (F64.finite 0, F64.finite 0))) (F64.finite 0) = false →
        spread_f64_ieee v_1 v_2 =
          F64.sub (F64.finite 1)
            (F64.div
              (F64.mul (F64.add (F64.mul v_1.1 v_2.1) (F64.mul v_1.2 v_2.2))
                (F64.add (F64.mul v_1.1 v_2.1) (F64.mul v_1.2 v_2.2)))
              (F64.mul (quadrance_f64_ieee v_1 (F64.finite 0, F64.finite 0))
                (quadrance_f64_ieee v_2 (F64.finite 0, F64.finite 0))))) := by
  refine ⟨fun v_1 v_2 => spreadS_guard 32 v_1 v_2,
    fun v_1 v_2 => spreadS_guard 64 v_1 v_2,
    fun v_1 v_2 => spreadS_guard 128 v_1 v_2,
    fun v_1 v_2 => spreadU_guard 32 v_1 v_2,
    fun v_1 v_2 => spreadU_guard 64 v_1 v_2,
    fun v_1 v_2 => spreadU_guard 128 v_1 v_2,
    fun v_1 v_2 => ?_⟩
  constructor
  · intro h
    simp only [spread_f64_ieee]
    rw [if_pos h]
  · intro h
    simp only [spread_f64_ieee]
    rw [if_neg (by simp [h])]

/-- Witness for `spread_specializations_guard` at concrete zero-vector
inputs: every guard branch returns zero without dividing. -/
theorem spread_specializations_guard_witness :
    spread_i64 (0, 0) (1, 0) = 0 ∧ spread_u64 (0, 0) (1, 0) = 0 ∧
    spread_f64_ieee (F64.finite 0, F64.finite 0) (F64.finite 1, F64.finite 0) =
      F64.finite 0 := by
  refine ⟨(spread_specializations_guard.2.1 (0, 0) (1, 0)).1 (by decide),
    (spread_specializations_guard.2.2.2.2.1 (0, 0) (1, 0)).1 (by decide),
    (spread_specializations_guard.2.2.2.2.2.2 (F64.finite 0, F64.finite 0)
      (F64.finite 1, F64.finite 0)).1 ?_⟩
  norm_num [quadrance_f64_ieee, F64.sub, F64.neg, F64.add, F64.mul, f64Beq, f64Round]
